import Mathlib

/-!
Shallow embedding of the storefront backend (src/main.py, src/schemas.py).

Conventions of the embedding:
* MongoDB `ObjectId` values are modelled as `Nat`; the 24-hex-digit string
  form produced by `str(ObjectId)` is modelled by `oidHex`, and
  `bson.ObjectId(s)` applied to a string is modelled by `parseOid`
  (`none` models the `InvalidId` exception raised for a string that is not
  24 hex characters).
* Python `float` prices/ratings are modelled as `ℚ` (the handlers only ever
  compare them, never do lossy arithmetic on them).
* `datetime` instants are modelled as abstract `Nat` ticks; `serialize_doc`'s
  ISO-8601 rendering of an instant is a bijective presentation-layer step and
  is represented by the instant itself.
* A collection of the document store is a `List` of records in store (natural)
  order; `find` with a filter is `List.filter`, `find_one` is `List.find?`
  (first match), `update_one` updates the first matching document.
* The store is modelled as available (`db is not None`); the handlers'
  store-unavailable branches are outside the claims considered here.
* MongoDB's `$regex` operator with the `"i"` option is modelled by `reSearch`
  for the regex fragment consisting of literal characters and the `.`
  metacharacter; the model agrees with the program's unescaped PCRE pattern
  exactly when the pattern's only metacharacter is the dot, and every
  theorem about other queries restricts its pattern accordingly
  (`isRegexMeta`).
* The `EmailStr` format check of the `User` schema is performed by the
  external email-validator library; it is modelled as an abstract verdict
  function `emailOk` passed to `register`, and the theorem about `register`
  quantifies over that verdict.
-/

/-- One record of the `product` collection (schema `Product` of
src/schemas.py plus the store's `_id`).  No handler in src/main.py ever
writes a `created_at` field on a product, but arbitrary store contents may
carry one; it is `Option` for that reason. -/
structure ProductRec where
  id : Nat
  title : String
  description : Option String
  price : ℚ
  category : String
  images : List String
  rating : ℚ
  rating_count : Nat
  in_stock : Bool
  features : List String
  created_at : Option Nat
deriving DecidableEq, Repr

/-- One record of the `cartitem` collection (schema `CartItem` of
src/schemas.py plus `_id`; `updated_at` is absent until `update_cart`
sets it).  `qty` is `Int` because the `PATCH /cart/{id}` body (`CartUpdate`)
places no lower bound on it. -/
structure CartItemRec where
  id : Nat
  client_id : String
  product_id : String
  qty : Int
  updated_at : Option Nat
deriving DecidableEq, Repr

/-- The `role` enum of the `User` schema. -/
inductive Role where
  | user
  | admin
deriving DecidableEq, Repr

/-- One record of the `user` collection (schema `User` of src/schemas.py
plus `_id`). -/
structure UserRec where
  id : Nat
  name : String
  email : String
  password_hash : String
  address : Option String
  is_active : Bool
  role : Role
deriving DecidableEq, Repr

/-- One record of the `category` collection (schema `Category` of
src/schemas.py plus `_id`). -/
structure CategoryRec where
  id : Nat
  name : String
  slug : String
  icon : Option String
  description : Option String
deriving DecidableEq, Repr

/-- How a handler terminates abnormally: `http c` is a raised
`HTTPException(status_code = c)`; `invalidId` is the uncaught
`bson.errors.InvalidId` exception raised by `ObjectId(s)` on a malformed
string (surfaced by the framework as a 500, not as a handled status);
`validation` is an uncaught pydantic `ValidationError` raised while
constructing a schema object inside a handler body (also surfaced as a
500, since it is not a request-parsing error). -/
inductive ApiErr where
  | http (code : Nat)
  | invalidId
  | validation
deriving DecidableEq, Repr

/-- `true` for the characters `ObjectId.is_valid` accepts in a 24-character
hex string. -/
def isHexChar (c : Char) : Bool :=
  c.isDigit || ('a' ≤ c && c ≤ 'f') || ('A' ≤ c && c ≤ 'F')

/-- Numeric value of a hex digit. -/
def hexVal (c : Char) : Nat :=
  if c.isDigit then c.toNat - 48
  else if 'a' ≤ c && c ≤ 'f' then c.toNat - 87
  else c.toNat - 55

/-- `bson.ObjectId(s)` on a string: accepts exactly the 24-hex-digit strings
(`ObjectId.is_valid`), returning the identifier's value; `none` models the
raised `InvalidId` exception. -/
def parseOid (s : String) : Option Nat :=
  if s.data.length = 24 && s.data.all isHexChar then
    some (s.data.foldl (fun a c => 16 * a + hexVal c) 0)
  else
    none

/-- `str(ObjectId)`: the 24-hex-digit rendering of an identifier (used by
`serialize_doc` when it replaces `_id` by the string field `id`). -/
def oidHex (n : Nat) : String :=
  let ds := Nat.toDigits 16 n
  String.mk (List.replicate (24 - ds.length) '0' ++ ds)

/-- One pattern character against one subject character, under the `"i"`
option: `.` matches anything, any other character matches case-insensitively.
Models one step of MongoDB `$regex` matching on the literal-and-dot
fragment: it is faithful to the program exactly for patterns whose only
metacharacter is the dot (see `isRegexMeta`); theorems about other queries
restrict their patterns to that fragment. -/
def chMatch (p c : Char) : Bool :=
  p == '.' || p.toLower == c.toLower

/-- The pattern matches a prefix of the subject (consecutively, starting at
the front). -/
def matchHere : List Char → List Char → Bool
  | [], _ => true
  | _ :: _, [] => false
  | p :: ps, c :: cs => chMatch p c && matchHere ps cs

/-- Unanchored regex search, as `$regex` performs it: the pattern matches
at some position of the subject.  Like `chMatch`, faithful to the
program's unescaped PCRE `$regex` only for patterns with no metacharacter
other than the dot; every theorem below applies it within that fragment. -/
def reSearch (pat : List Char) : List Char → Bool
  | [] => matchHere pat []
  | c :: cs => matchHere pat (c :: cs) || reSearch pat cs

/-- The query matches a prefix of the subject comparing characters
case-insensitively (no metacharacters: this is the specification's notion
of a literal, case-insensitive occurrence). -/
def leadMatch : List Char → List Char → Bool
  | [], _ => true
  | _ :: _, [] => false
  | a :: as, b :: bs => a.toLower == b.toLower && leadMatch as bs

/-- The query occurs at some position of the subject, case-insensitively. -/
def occursIn (q : List Char) : List Char → Bool
  | [] => leadMatch q []
  | c :: cs => leadMatch q (c :: cs) || occursIn q cs

/-- Specification-side predicate: `q` is a literal, case-insensitive
substring of `s`. -/
def substrCI (q s : String) : Bool :=
  occursIn q.data s.data

/-- The PCRE metacharacters of the program's unescaped `$regex` pattern:
dot, star, plus, question mark, square brackets, parentheses, curly
braces, caret, dollar, bar and backslash.  A query free of all of these is
matched by PCRE as a literal (case-insensitive) string, which is the
domain on which the literal-and-dot model `reSearch` agrees with the
program. -/
def isRegexMeta (c : Char) : Bool :=
  [ '.' , '*' , '+' , '?' , '[' , ']' , '(' , ')' , '\x7b' , '\x7d'
  , '^' , '$' , '|' , '\\' ].contains c

/-- The value a product document carries under a sortable field name, for
the fields the claims range over (the numeric and timestamp fields); a name
that is not a field of the document behaves like a missing field (`none`,
which BSON orders below every number).  String-valued fields are outside
the claims and also map to `none`. -/
def fieldVal (key : String) (p : ProductRec) : Option ℚ :=
  if key = "price" then some p.price
  else if key = "rating" then some p.rating
  else if key = "rating_count" then some (p.rating_count : ℚ)
  else if key = "created_at" then p.created_at.map (fun n => (n : ℚ))
  else none

/-- BSON comparison on an optional numeric value: a missing/null field sorts
below every number. -/
def optLe : Option ℚ → Option ℚ → Bool
  | none, _ => true
  | some _, none => false
  | some a, some b => decide (a ≤ b)

/-- Insert into a sorted list (helper of the modelled store sort). -/
def insertBy (le : α → α → Bool) (a : α) : List α → List α
  | [] => [a]
  | b :: bs => if le a b then a :: b :: bs else b :: insertBy le a bs

/-- The store's single-key sort, modelled as an insertion sort (the claims
depend only on the output being an ordered permutation of the input, which
any correct sort provides). -/
def sortBy (le : α → α → Bool) : List α → List α
  | [] => []
  | a :: as => insertBy le a (sortBy le as)

/-- Ascending comparison on a field (`cursor.sort(key, 1)`). -/
def ascLe (key : String) (a b : ProductRec) : Bool :=
  optLe (fieldVal key a) (fieldVal key b)

/-- Descending comparison on a field (`cursor.sort(key, -1)`). -/
def descLe (key : String) (a b : ProductRec) : Bool :=
  optLe (fieldVal key b) (fieldVal key a)

/-- src/main.py lines 150-153: if `sort` is truthy (non-empty), sort
descending on `sort[1:]` when it starts with `-`, else ascending on
`sort`. -/
def applySort (sort : String) (l : List ProductRec) : List ProductRec :=
  match sort.data with
  | [] => l
  | c :: rest =>
    if c = '-' then sortBy (descLe (String.mk rest)) l
    else sortBy (ascLe sort) l

/-- The filter document `filt` built by `list_products` (src/main.py lines
133-147), as a predicate on a product document: `$or` of two `$regex`
clauses when `q` is truthy (a document with no `description` field fails a
`$regex` clause on it), an exact `category` match when truthy, and an
inclusive `$gte`/`$lte` price range from whichever bounds are present. -/
def prodFilter (q category : Option String) (min_price max_price : Option ℚ)
    (p : ProductRec) : Bool :=
  (match q with
   | none => true
   | some s =>
     if s = "" then true
     else
       reSearch s.data p.title.data ||
         (match p.description with
          | some d => reSearch s.data d.data
          | none => false)) &&
  (match category with
   | none => true
   | some c => if c = "" then true else p.category == c) &&
  (match min_price with
   | none => true
   | some v => decide (v ≤ p.price)) &&
  (match max_price with
   | none => true
   | some v => decide (p.price ≤ v))

/-- The default of the `sort` query parameter (src/main.py line 127). -/
def defaultSort : String := "-created_at"

/-- The response document of `GET /products`.  Items are kept as store
records: `serialize_doc`'s id/timestamp rendering does not change which
documents are returned, which is what the claims are about. -/
structure ProdListOut where
  items : List ProductRec
  total : Nat
  page : Nat
  pages : Nat
deriving DecidableEq, Repr

/-- `list_products` (src/main.py lines 121-157): build `filt`, sort, count
the filtered set (`cursor.count()` counts before skip/limit), then apply
`skip((page - 1) * limit)` and `limit(limit)`. -/
def list_products (q category : Option String) (min_price max_price : Option ℚ)
    (sort : String) (page limit : Nat) (products : List ProductRec) :
    ProdListOut :=
  let filtered := products.filter (prodFilter q category min_price max_price)
  let sorted := applySort sort filtered
  let total := filtered.length
  { items := (sorted.drop ((page - 1) * limit)).take limit
    total := total
    page := page
    pages := (total + limit - 1) / limit }

/-- The concatenation of the item pages `1 .. pages` returned by
`list_products` for a fixed filter, sort and page size. -/
def allPages (q category : Option String) (min_price max_price : Option ℚ)
    (sort : String) (limit : Nat) (products : List ProductRec) :
    List ProductRec :=
  let pages := (list_products q category min_price max_price sort 1 limit products).pages
  ((List.range pages).map
    (fun k => (list_products q category min_price max_price sort (k + 1) limit products).items)).flatten

/-- The `GET /products/{id}` response: `serialize_doc` replaces the store's
`_id` by its string rendering under the key `id`; every other schema field
is passed through (`datetime` fields — which no product document has on any
write path of this service — would be rendered in ISO form, represented
here by the abstract instant itself). -/
structure SerProduct where
  id : String
  title : String
  description : Option String
  price : ℚ
  category : String
  images : List String
  rating : ℚ
  rating_count : Nat
  in_stock : Bool
  features : List String
  created_at : Option Nat
deriving DecidableEq, Repr

/-- `serialize_doc` (src/main.py lines 36-44) on a product document. -/
def serialize_product (p : ProductRec) : SerProduct :=
  { id := oidHex p.id
    title := p.title
    description := p.description
    price := p.price
    category := p.category
    images := p.images
    rating := p.rating
    rating_count := p.rating_count
    in_stock := p.in_stock
    features := p.features
    created_at := p.created_at }

/-- `get_product` (src/main.py lines 164-171): `ObjectId(product_id)` raises
on a malformed id (no handler catches it); otherwise `find_one` on `_id`,
404 when nothing matches, else the serialized document. -/
def get_product (product_id : String) (products : List ProductRec) :
    Except ApiErr SerProduct :=
  match parseOid product_id with
  | none => Except.error ApiErr.invalidId
  | some oid =>
    match products.find? (fun p => p.id == oid) with
    | none => Except.error (ApiErr.http 404)
    | some p => Except.ok (serialize_product p)

/-- The per-item body of the `get_cart` loop (src/main.py lines 201-205):
a falsy (empty) `product_id` yields no lookup and a `null` product; a
truthy one goes through `ObjectId(...)` — raising on a malformed string —
and then `find_one` on `_id`, attaching `None` when nothing matches.
Rows keep the store records; `serialize_doc`'s rendering does not change
which row or which product a row carries. -/
def resolveCart (products : List ProductRec) :
    List CartItemRec → Except ApiErr (List (CartItemRec × Option ProductRec))
  | [] => Except.ok []
  | it :: rest =>
    let prod? : Except ApiErr (Option ProductRec) :=
      if it.product_id = "" then Except.ok none
      else
        match parseOid it.product_id with
        | none => Except.error ApiErr.invalidId
        | some oid => Except.ok (products.find? (fun p => p.id == oid))
    match prod?, resolveCart products rest with
    | Except.ok p, Except.ok r => Except.ok ((it, p) :: r)
    | Except.error e, _ => Except.error e
    | _, Except.error e => Except.error e

/-- `get_cart` (src/main.py lines 188-206): fetch the cart items matching
`client_id` (store order), then attach each item's product manually. -/
def get_cart (client_id : String) (items : List CartItemRec)
    (products : List ProductRec) :
    Except ApiErr (List (CartItemRec × Option ProductRec)) :=
  resolveCart products (items.filter (fun it => it.client_id == client_id))

/-- `update_one` on `{_id: oid}`: rewrite the first matching document with
`f`, reporting whether one matched (`matched_count`). -/
def updateFirst (oid : Nat) (f : CartItemRec → CartItemRec) :
    List CartItemRec → List CartItemRec × Bool
  | [] => ([], false)
  | it :: rest =>
    if it.id = oid then (f it :: rest, true)
    else
      let r := updateFirst oid f rest
      (it :: r.1, r.2)

/-- `update_cart` (src/main.py lines 217-222): `ObjectId(item_id)` raises on
a malformed id; otherwise `$set` `qty` and `updated_at = utcnow()` on the
matching document, 404 when `matched_count == 0`, else `ok`. -/
def update_cart (item_id : String) (qty : Int) (now : Nat)
    (items : List CartItemRec) : List CartItemRec × Except ApiErr Unit :=
  match parseOid item_id with
  | none => (items, Except.error ApiErr.invalidId)
  | some oid =>
    let r := updateFirst oid
      (fun it => { it with qty := qty, updated_at := some now }) items
    if r.2 then (r.1, Except.ok ()) else (r.1, Except.error (ApiErr.http 404))

/-- The `POST /auth/register` success body. -/
structure RegisterOut where
  id : Nat
  name : String
  email : String
  role : Role
deriving DecidableEq, Repr

/-- Modelled from the spec: `create_document` lives in `database.py`, which
is not under src/ (src/main.py only imports it).  Per §3 of the
specification a record is "persisted as an independent record in a document
store, identified by a store-generated unique identifier", and `register`
uses the returned identifier as the created user's id — so the modelled
operation appends the record built from the store-generated fresh
identifier `newId` and returns that identifier. -/
def create_document (newId : Nat) (coll : List α) (doc : Nat → α) :
    List α × Nat :=
  (coll ++ [doc newId], newId)

/-- `register` (src/main.py lines 86-93): 400 when `find_one` on the email
finds an existing user (the duplicate check runs first); otherwise build
the `User` (role defaulted to `user`, the raw password stored as
`password_hash`), persist it, and return id, name, email, role.
Constructing `User(...)` (main.py line 91) validates the email against the
`EmailStr` field of schemas.py line 20; that check is performed by the
external email-validator library, modelled here as the abstract verdict
`emailOk` — when it rejects, the pydantic `ValidationError` escapes the
handler (`ApiErr.validation`) and no user is created. -/
def register (emailOk : String → Bool) (newId : Nat)
    (name email password : String)
    (users : List UserRec) : List UserRec × Except ApiErr RegisterOut :=
  match users.find? (fun u => u.email == email) with
  | some _ => (users, Except.error (ApiErr.http 400))
  | none =>
    if emailOk email then
      let mk : Nat → UserRec := fun i =>
        { id := i, name := name, email := email, password_hash := password
          address := none, is_active := true, role := Role.user }
      let r := create_document newId users mk
      (r.1, Except.ok { id := r.2, name := name, email := email, role := Role.user })
    else
      (users, Except.error ApiErr.validation)

/-- The store state the seeding endpoint touches.  `nextId` models the
store's fresh-identifier supply for `insert_many`. -/
structure Store where
  products : List ProductRec
  categories : List CategoryRec
  nextId : Nat
deriving DecidableEq, Repr

/-- The `POST /seed` response body: `Already seeded` or the inserted
count. -/
inductive SeedOut where
  | already
  | inserted (n : Nat)
deriving DecidableEq, Repr

/-- The three fixed categories bulk-inserted by `seed_data` (src/main.py
lines 250-255). -/
def seedCategories (base : Nat) : List CategoryRec :=
  [ { id := base, name := "Cards", slug := "cards", icon := some "CreditCard"
      description := some "Payment cards and fintech" }
  , { id := base + 1, name := "Accessories", slug := "accessories"
      icon := some "Star", description := some "Premium accessories" }
  , { id := base + 2, name := "Software", slug := "software"
      icon := some "Settings", description := some "Apps and tools" } ]

/-- The sample product generated for loop index `i` (src/main.py lines
257-271); `49.0 + i` is exact in ℚ and `4.5` is `9/2`. -/
def seedProduct (idv i : Nat) : ProductRec :=
  { id := idv
    title := "Premium Card " ++ toString i
    description := some "Elegant glassmorphic fintech card with premium perks."
    price := 49 + (i : ℚ)
    category := "cards"
    images :=
      [ "https://images.unsplash.com/photo-1633265486064-086b219478d0?q=80&w=1200&auto=format&fit=crop"
      , "https://images.unsplash.com/photo-1563013544-824ae1b704d3?q=80&w=1200&auto=format&fit=crop" ]
    rating := 9 / 2
    rating_count := 120 + i
    in_stock := true
    features := ["Metal body", "Cashback", "Priority support"]
    created_at := none }

/-- The generated batch `for i in range(1, 25)` (24 products). -/
def seedProducts (base : Nat) : List ProductRec :=
  (List.range 24).map (fun k => seedProduct (base + k) (k + 1))

/-- `seed_data` (src/main.py lines 244-273): a no-op reporting
`Already seeded` when `count_documents({}) > 0` on the product collection;
otherwise bulk-insert the fixed categories and the generated products. -/
def seed_data (st : Store) : Store × SeedOut :=
  if st.products.length > 0 then (st, SeedOut.already)
  else
    ( { products := st.products ++ seedProducts (st.nextId + 3)
        categories := st.categories ++ seedCategories st.nextId
        nextId := st.nextId + 27 }
    , SeedOut.inserted (seedProducts (st.nextId + 3)).length )

/-- A concrete product used to instantiate the proved theorems. -/
def pA : ProductRec :=
  { id := 1, title := "Alpha", description := some "first sample"
    price := 50, category := "cards", images := [], rating := 4
    rating_count := 1, in_stock := true, features := [], created_at := none }

/-- A second concrete product. -/
def pB : ProductRec :=
  { id := 2, title := "Beta", description := none
    price := 55, category := "cards", images := [], rating := 3
    rating_count := 2, in_stock := true, features := [], created_at := some 5 }

/-- A third concrete product; its title has no occurrence of a dot. -/
def pC : ProductRec :=
  { id := 3, title := "abc", description := none
    price := 70, category := "toys", images := [], rating := 5
    rating_count := 3, in_stock := false, features := [], created_at := some 9 }

/-- A concrete cart item whose `product_id` is a well-formed identifier
string (the identifier `1`). -/
def ciA : CartItemRec :=
  { id := 10, client_id := "c1", product_id := "000000000000000000000001"
    qty := 1, updated_at := none }

/-- A concrete cart item whose `product_id` is a non-empty string that is
not a well-formed identifier. -/
def ciB : CartItemRec :=
  { id := 11, client_id := "c1", product_id := "zz"
    qty := 2, updated_at := none }

theorem insertBy_perm (le : α → α → Bool) (a : α) (l : List α) :
    (insertBy le a l).Perm (a :: l) := by
  induction l with
  | nil => exact List.Perm.refl _
  | cons b bs ih =>
    rw [insertBy]
    by_cases h : le a b = true
    · rw [if_pos h]
    · rw [if_neg h]
      exact (ih.cons b).trans (List.Perm.swap a b bs)

theorem sortBy_perm (le : α → α → Bool) (l : List α) :
    (sortBy le l).Perm l := by
  induction l with
  | nil => exact List.Perm.refl _
  | cons a as ih =>
    rw [sortBy]
    exact (insertBy_perm le a (sortBy le as)).trans (ih.cons a)

theorem mem_insertBy (le : α → α → Bool) (a x : α) (l : List α) :
    x ∈ insertBy le a l ↔ x = a ∨ x ∈ l := by
  rw [(insertBy_perm le a l).mem_iff, List.mem_cons]

theorem insertBy_pairwise (le : α → α → Bool)
    (htr : ∀ x y z, le x y = true → le y z = true → le x z = true)
    (hto : ∀ x y, le x y = true ∨ le y x = true)
    (a : α) (l : List α) (h : l.Pairwise (fun x y => le x y = true)) :
    (insertBy le a l).Pairwise (fun x y => le x y = true) := by
  induction l with
  | nil => simp [insertBy]
  | cons b bs ih =>
    rw [List.pairwise_cons] at h
    rw [insertBy]
    by_cases hab : le a b = true
    · rw [if_pos hab, List.pairwise_cons]
      refine ⟨?_, List.pairwise_cons.2 h⟩
      intro x hx
      rcases List.mem_cons.1 hx with rfl | hx
      · exact hab
      · exact htr a b x hab (h.1 x hx)
    · rw [if_neg hab, List.pairwise_cons]
      have hba : le b a = true := (hto a b).resolve_left hab
      refine ⟨?_, ih h.2⟩
      intro x hx
      rcases (mem_insertBy le a x bs).1 hx with rfl | hx
      · exact hba
      · exact h.1 x hx

theorem sortBy_pairwise (le : α → α → Bool)
    (htr : ∀ x y z, le x y = true → le y z = true → le x z = true)
    (hto : ∀ x y, le x y = true ∨ le y x = true)
    (l : List α) :
    (sortBy le l).Pairwise (fun x y => le x y = true) := by
  induction l with
  | nil => simp [sortBy]
  | cons a as ih => exact insertBy_pairwise le htr hto a (sortBy le as) ih

theorem optLe_total (a b : Option ℚ) : optLe a b = true ∨ optLe b a = true := by
  match a, b with
  | none, _ => exact Or.inl rfl
  | some _, none => exact Or.inr rfl
  | some x, some y =>
    rcases le_total x y with h | h
    · exact Or.inl (by simpa [optLe] using h)
    · exact Or.inr (by simpa [optLe] using h)

theorem optLe_trans (a b c : Option ℚ) (h1 : optLe a b = true)
    (h2 : optLe b c = true) : optLe a c = true := by
  match a, b, c with
  | none, _, _ => rfl
  | some _, none, _ => exact absurd h1 (by simp [optLe])
  | some _, some _, none => exact absurd h2 (by simp [optLe])
  | some x, some y, some z =>
    simp only [optLe, decide_eq_true_eq] at h1 h2 ⊢
    exact h1.trans h2

theorem descLe_total (key : String) (a b : ProductRec) :
    descLe key a b = true ∨ descLe key b a = true :=
  optLe_total (fieldVal key b) (fieldVal key a)

theorem descLe_trans (key : String) (a b c : ProductRec)
    (h1 : descLe key a b = true) (h2 : descLe key b c = true) :
    descLe key a c = true :=
  optLe_trans _ _ _ h2 h1

theorem ascLe_total (key : String) (a b : ProductRec) :
    ascLe key a b = true ∨ ascLe key b a = true :=
  optLe_total (fieldVal key a) (fieldVal key b)

theorem ascLe_trans (key : String) (a b c : ProductRec)
    (h1 : ascLe key a b = true) (h2 : ascLe key b c = true) :
    ascLe key a c = true :=
  optLe_trans _ _ _ h1 h2

theorem applySort_perm (sort : String) (l : List ProductRec) :
    (applySort sort l).Perm l := by
  rw [applySort]
  rcases hd : sort.data with _ | ⟨c, rest⟩
  · exact List.Perm.refl _
  · show (if c = '-' then sortBy (descLe (String.mk rest)) l
        else sortBy (ascLe sort) l).Perm l
    by_cases hc : c = '-'
    · rw [if_pos hc]; exact sortBy_perm _ l
    · rw [if_neg hc]; exact sortBy_perm _ l

theorem applySort_length (sort : String) (l : List ProductRec) :
    (applySort sort l).length = l.length :=
  (applySort_perm sort l).length_eq

theorem mem_applySort (sort : String) (p : ProductRec) (l : List ProductRec) :
    p ∈ applySort sort l ↔ p ∈ l :=
  (applySort_perm sort l).mem_iff

theorem applySort_dash (f : String) (l : List ProductRec) :
    applySort ("-" ++ f) l = sortBy (descLe f) l := by
  rw [applySort]
  have hd : ("-" ++ f).data = '-' :: f.data := by
    rw [String.data_append]; rfl
  rw [hd]
  cases f with
  | mk d => rfl

theorem applySort_plain (f : String) (hn : f.data ≠ [])
    (hh : f.data.head? ≠ some '-') (l : List ProductRec) :
    applySort f l = sortBy (ascLe f) l := by
  rw [applySort]
  rcases hd : f.data with _ | ⟨c, rest⟩
  · exact absurd hd hn
  · have hc : c ≠ '-' := by
      intro h
      exact hh (by rw [hd, h]; rfl)
    show (if c = '-' then sortBy (descLe (String.mk rest)) l
        else sortBy (ascLe f) l) = sortBy (ascLe f) l
    rw [if_neg hc]

theorem flatten_chunks (limit : Nat) (_hl : 1 ≤ limit) :
    ∀ (n : Nat) (l : List α), l.length ≤ n * limit →
      ((List.range n).map (fun k => (l.drop (k * limit)).take limit)).flatten = l := by
  intro n
  induction n with
  | zero =>
    intro l h
    simp only [Nat.zero_mul, Nat.le_zero, List.length_eq_zero] at h
    simp [h]
  | succ n ih =>
    intro l h
    rw [List.range_succ_eq_map, List.map_cons, List.map_map, List.flatten_cons]
    have h0 : (l.drop (0 * limit)).take limit = l.take limit := by simp
    rw [h0]
    have hmap : (List.range n).map ((fun k => (l.drop (k * limit)).take limit) ∘ Nat.succ)
        = (List.range n).map (fun k => (((l.drop limit).drop (k * limit))).take limit) := by
      refine List.map_congr_left ?_
      intro k _
      simp only [Function.comp_apply]
      rw [List.drop_drop]
      congr 2
      rw [Nat.succ_mul, Nat.add_comm]
    rw [hmap]
    rw [ih (l.drop limit) ?_]
    · exact List.take_append_drop limit l
    · rw [List.length_drop]
      rw [Nat.succ_mul] at h
      exact Nat.sub_le_iff_le_add.2 h

theorem le_ceil_mul (t limit : Nat) (hl : 1 ≤ limit) :
    t ≤ ((t + limit - 1) / limit) * limit := by
  have h := le_smul_ceilDiv (α := ℕ) (a := limit) (b := t) hl
  rw [smul_eq_mul] at h
  calc t ≤ limit * (t ⌈/⌉ limit) := h
    _ = ((t + limit - 1) / limit) * limit := by
        rw [Nat.ceilDiv_eq_add_pred_div, Nat.mul_comm]

theorem allPages_eq (q category : Option String) (mn mx : Option ℚ)
    (sort : String) (limit : Nat) (products : List ProductRec)
    (hl : 1 ≤ limit) :
    allPages q category mn mx sort limit products
      = applySort sort (products.filter (prodFilter q category mn mx)) := by
  have hitems : ∀ k, (list_products q category mn mx sort (k + 1) limit products).items
      = ((applySort sort (products.filter (prodFilter q category mn mx))).drop
          (k * limit)).take limit := by
    intro k
    show ((applySort sort (products.filter (prodFilter q category mn mx))).drop
        ((k + 1 - 1) * limit)).take limit = _
    rw [Nat.add_sub_cancel]
  have hpages : (list_products q category mn mx sort 1 limit products).pages
      = ((products.filter (prodFilter q category mn mx)).length + limit - 1) / limit := rfl
  have hfun : (List.range (((products.filter (prodFilter q category mn mx)).length + limit - 1) / limit)).map
        (fun k => (list_products q category mn mx sort (k + 1) limit products).items)
      = (List.range (((products.filter (prodFilter q category mn mx)).length + limit - 1) / limit)).map
        (fun k => ((applySort sort (products.filter (prodFilter q category mn mx))).drop
          (k * limit)).take limit) :=
    List.map_congr_left (fun k _ => hitems k)
  show ((List.range (((products.filter (prodFilter q category mn mx)).length + limit - 1) / limit)).map
      (fun k => (list_products q category mn mx sort (k + 1) limit products).items)).flatten
    = applySort sort (products.filter (prodFilter q category mn mx))
  rw [hfun]
  refine flatten_chunks limit hl _ _ ?_
  rw [applySort_length]
  exact le_ceil_mul _ limit hl

/-- C2: for every filter combination and limit in 1..60, `list_products`
computes `total` as the count of records matching the filter before
skip/limit, reports `pages = ceil(total / limit)` (`⌈/⌉` is ℕ ceiling
division), returns at most `limit` items for the requested 1-indexed page,
and the concatenation of the item pages 1..pages has length `total`. -/
theorem listProducts_pagination (q category : Option String)
    (mn mx : Option ℚ) (sort : String) (page limit : Nat)
    (products : List ProductRec)
    (_hpage : 1 ≤ page) (hl : 1 ≤ limit) (_hu : limit ≤ 60) :
    (list_products q category mn mx sort page limit products).total
        = (products.filter (prodFilter q category mn mx)).length
    ∧ (list_products q category mn mx sort page limit products).pages
        = (list_products q category mn mx sort page limit products).total ⌈/⌉ limit
    ∧ (list_products q category mn mx sort page limit products).items.length ≤ limit
    ∧ (allPages q category mn mx sort limit products).length
        = (list_products q category mn mx sort page limit products).total := by
  refine ⟨rfl, rfl, ?_, ?_⟩
  · exact List.length_take_le limit _
  · rw [allPages_eq q category mn mx sort limit products hl, applySort_length]
    rfl

/-- Witness for C2 at a concrete input: three products, page size 2. -/
theorem listProducts_pagination_wit :
    (list_products none none none none "-price" 1 2 [pA, pB, pC]).total
        = ([pA, pB, pC].filter (prodFilter none none none none)).length
    ∧ (list_products none none none none "-price" 1 2 [pA, pB, pC]).pages
        = (list_products none none none none "-price" 1 2 [pA, pB, pC]).total ⌈/⌉ 2
    ∧ (list_products none none none none "-price" 1 2 [pA, pB, pC]).items.length ≤ 2
    ∧ (allPages none none none none "-price" 2 [pA, pB, pC]).length
        = (list_products none none none none "-price" 1 2 [pA, pB, pC]).total :=
  listProducts_pagination none none none none "-price" 1 2 [pA, pB, pC]
    (by decide) (by decide) (by decide)

/-- C3: with only price bounds set, a product appears among the returned
items (across the pages) iff it is stored and its price satisfies each
bound that is present, inclusively and independently. -/
theorem listProducts_price_range (mn mx : Option ℚ) (sort : String)
    (limit : Nat) (products : List ProductRec) (p : ProductRec)
    (hl : 1 ≤ limit) (_hu : limit ≤ 60) :
    p ∈ allPages none none mn mx sort limit products
      ↔ p ∈ products ∧ (mn.elim True (fun v => v ≤ p.price)
          ∧ mx.elim True (fun v => p.price ≤ v)) := by
  rw [allPages_eq none none mn mx sort limit products hl, mem_applySort,
    List.mem_filter]
  refine and_congr Iff.rfl ?_
  rcases mn with _ | v <;> rcases mx with _ | w <;>
    simp [prodFilter, Option.elim]

/-- Witness for C3 at a concrete input: bounds `[50, 60]` and the product
`pA` of price 50. -/
theorem listProducts_price_range_wit :
    pA ∈ allPages none none (some 50) (some 60) "" 12 [pA, pB, pC]
      ↔ pA ∈ [pA, pB, pC]
          ∧ ((Option.some (50 : ℚ)).elim True (fun v => v ≤ pA.price)
              ∧ (Option.some (60 : ℚ)).elim True (fun v => pA.price ≤ v)) :=
  listProducts_price_range (some 50) (some 60) "" 12 [pA, pB, pC] pA
    (by decide) (by decide)

/-- The requested page of `list_products` is sorted by `le` whenever the
applied sort is `sortBy le` and `le` is a total preorder. -/
theorem items_pairwise (s : String) (le : ProductRec → ProductRec → Bool)
    (hs : ∀ l, applySort s l = sortBy le l)
    (htr : ∀ x y z, le x y = true → le y z = true → le x z = true)
    (hto : ∀ x y, le x y = true ∨ le y x = true)
    (q category : Option String) (mn mx : Option ℚ) (page limit : Nat)
    (products : List ProductRec) :
    (list_products q category mn mx s page limit products).items.Pairwise
      (fun a b => le a b = true) := by
  have hitems : (list_products q category mn mx s page limit products).items
      = ((sortBy le (products.filter (prodFilter q category mn mx))).drop
          ((page - 1) * limit)).take limit := by
    show ((applySort s (products.filter (prodFilter q category mn mx))).drop
        ((page - 1) * limit)).take limit = _
    rw [hs]
  rw [hitems]
  exact List.Pairwise.sublist
    ((List.take_sublist _ _).trans (List.drop_sublist _ _))
    (sortBy_pairwise le htr hto (products.filter (prodFilter q category mn mx)))

/-- C9: `list_products` sorts by exactly one key: with the field name
prefixed by `-` the returned page is non-increasing in that field's value,
with the unprefixed field name it is non-decreasing, and the `sort`
parameter defaults to `-created_at` (descending creation time). -/
theorem listProducts_sort_key (f : String) (q category : Option String)
    (mn mx : Option ℚ) (page limit : Nat) (products : List ProductRec)
    (hn : f.data ≠ []) (hh : f.data.head? ≠ some '-') :
    ((list_products q category mn mx ("-" ++ f) page limit products).items.Pairwise
        (fun a b => optLe (fieldVal f b) (fieldVal f a) = true))
    ∧ ((list_products q category mn mx f page limit products).items.Pairwise
        (fun a b => optLe (fieldVal f a) (fieldVal f b) = true))
    ∧ defaultSort = "-" ++ "created_at"
    ∧ ((list_products q category mn mx defaultSort page limit products).items.Pairwise
        (fun a b => optLe (fieldVal "created_at" b) (fieldVal "created_at" a) = true)) := by
  have hds : defaultSort = "-" ++ "created_at" := by decide
  refine ⟨?_, ?_, hds, ?_⟩
  · exact items_pairwise ("-" ++ f) (descLe f) (fun l => applySort_dash f l)
      (descLe_trans f) (descLe_total f) q category mn mx page limit products
  · exact items_pairwise f (ascLe f) (fun l => applySort_plain f hn hh l)
      (ascLe_trans f) (ascLe_total f) q category mn mx page limit products
  · refine items_pairwise defaultSort (descLe "created_at")
      (fun l => ?_) (descLe_trans _) (descLe_total _) q category mn mx page limit products
    rw [hds]
    exact applySort_dash "created_at" l

/-- Witness for C9 at a concrete input: field `price`. -/
theorem listProducts_sort_key_wit :
    ((list_products none none none none ("-" ++ "price") 1 12 [pA, pB, pC]).items.Pairwise
        (fun a b => optLe (fieldVal "price" b) (fieldVal "price" a) = true))
    ∧ ((list_products none none none none "price" 1 12 [pA, pB, pC]).items.Pairwise
        (fun a b => optLe (fieldVal "price" a) (fieldVal "price" b) = true))
    ∧ defaultSort = "-" ++ "created_at"
    ∧ ((list_products none none none none defaultSort 1 12 [pA, pB, pC]).items.Pairwise
        (fun a b => optLe (fieldVal "created_at" b) (fieldVal "created_at" a) = true)) :=
  listProducts_sort_key "price" none none none none 1 12 [pA, pB, pC]
    (by decide) (by decide)

theorem matchHere_eq_leadMatch (pat : List Char) (hnd : '.' ∉ pat) :
    ∀ s, matchHere pat s = leadMatch pat s := by
  induction pat with
  | nil => intro s; cases s <;> rfl
  | cons p ps ih =>
    intro s
    have hp : (p == '.') = false := by
      refine beq_eq_false_iff_ne.2 (fun h => hnd ?_)
      rw [h]
      exact List.mem_cons_self '.' ps
    have hps : '.' ∉ ps := fun h => hnd (List.mem_cons_of_mem p h)
    cases s with
    | nil => rfl
    | cons c cs =>
      rw [matchHere, leadMatch, ih hps, chMatch, hp, Bool.false_or]

theorem reSearch_eq_occursIn (pat : List Char) (hnd : '.' ∉ pat) :
    ∀ s, reSearch pat s = occursIn pat s := by
  intro s
  induction s with
  | nil => rw [reSearch, occursIn, matchHere_eq_leadMatch pat hnd]
  | cons c cs ih =>
    rw [reSearch, occursIn, matchHere_eq_leadMatch pat hnd, ih]

/-- C4 (amended): for a non-empty query that contains no PCRE
metacharacter (none of dot, star, plus, question mark, square brackets,
parentheses, curly braces, caret, dollar, bar, backslash — the domain on
which the modelled `$regex` agrees with the program's unescaped PCRE), a
product appears among the returned items iff it is stored and the query
occurs case-insensitively as a literal substring of its title or of its
description; in general the query is interpreted as a regular expression,
not as a literal substring. -/
theorem listProducts_query_substring (s sort : String) (limit : Nat)
    (products : List ProductRec) (p : ProductRec)
    (hs : s ≠ "") (hnm : ∀ c ∈ s.data, isRegexMeta c = false) (hl : 1 ≤ limit)
    (_hu : limit ≤ 60) :
    p ∈ allPages (some s) none none none sort limit products
      ↔ p ∈ products
        ∧ (substrCI s p.title = true
            ∨ p.description.elim False (fun d => substrCI s d = true)) := by
  have hnd : '.' ∉ s.data := fun hdot => absurd (hnm '.' hdot) (by decide)
  rw [allPages_eq (some s) none none none sort limit products hl,
    mem_applySort, List.mem_filter]
  refine and_congr Iff.rfl ?_
  have hf : prodFilter (some s) none none none p
      = (occursIn s.data p.title.data ||
          (match p.description with
           | some d => occursIn s.data d.data
           | none => false)) := by
    show ((if s = "" then true
        else reSearch s.data p.title.data ||
          (match p.description with
           | some d => reSearch s.data d.data
           | none => false)) && true && true && true) = _
    rw [if_neg hs]
    simp only [Bool.and_true, reSearch_eq_occursIn s.data hnd]
  rw [hf]
  rcases hdesc : p.description with _ | d <;>
    simp [hdesc, substrCI, Option.elim]

/-- Witness for C4 (amended) at a concrete input: query `bet` matches the
title `Beta` case-insensitively. -/
theorem listProducts_query_substring_wit :
    pB ∈ allPages (some "bet") none none none "" 12 [pA, pB, pC]
      ↔ pB ∈ [pA, pB, pC]
        ∧ (substrCI "bet" pB.title = true
            ∨ pB.description.elim False (fun d => substrCI "bet" d = true)) :=
  listProducts_query_substring "bet" "" 12 [pA, pB, pC] pB
    (by decide) (by decide) (by decide) (by decide)

/-- Counterexample to C4 as stated: with query `.` the product `abc` (title
without a dot, no description) is returned, although `.` does not occur as
a literal substring of its title and it has no description — the query is a
regex, `.` matches any character. -/
theorem listProducts_regex_dot_cex :
    pC ∈ (list_products (some ".") none none none "" 1 12 [pC]).items
    ∧ substrCI "." pC.title = false
    ∧ pC.description = none := by
  refine ⟨?_, by decide, rfl⟩
  show pC ∈ (([pC].take 12) : List ProductRec)
  decide

/-- C5 (amended): when the id string parses as a store identifier,
`get_product` fails with NotFound (404) exactly when no product has that
identifier and otherwise returns the matched record normalized by
`serialize_doc`; an id string that does not parse raises the store
driver's invalid-id error (a 500) instead of NotFound. -/
theorem get_product_spec (product_id : String) (oid : Nat)
    (products : List ProductRec) (hp : parseOid product_id = some oid) :
    ((∀ r ∈ products, r.id ≠ oid) →
        get_product product_id products = Except.error (ApiErr.http 404))
    ∧ (∀ p, products.find? (fun r => r.id == oid) = some p →
        get_product product_id products = Except.ok (serialize_product p)) := by
  unfold get_product
  rw [hp]
  constructor
  · intro h
    have hnone : products.find? (fun r => r.id == oid) = none :=
      List.find?_eq_none.2 (fun x hx => by simpa using h x hx)
    show (match products.find? (fun p => p.id == oid) with
        | none => Except.error (ApiErr.http 404)
        | some p => Except.ok (serialize_product p)) = Except.error (ApiErr.http 404)
    rw [hnone]
  · intro p hfind
    show (match products.find? (fun p => p.id == oid) with
        | none => Except.error (ApiErr.http 404)
        | some p => Except.ok (serialize_product p)) = Except.ok (serialize_product p)
    rw [hfind]

/-- Witness for C5 (amended) at a concrete input: the identifier string of
`pA` resolves to `pA`. -/
theorem get_product_spec_wit :
    get_product "000000000000000000000001" [pA, pB]
      = Except.ok (serialize_product pA) :=
  (get_product_spec "000000000000000000000001" 1 [pA, pB] (by decide)).2
    pA (by decide)

/-- Counterexample to C5 as stated: an id that does not parse as a store
identifier does not produce NotFound (404); `ObjectId` raises instead. -/
theorem get_product_unparsable_cex :
    get_product "nope" [pA] = Except.error ApiErr.invalidId
    ∧ get_product "nope" [pA] ≠ Except.error (ApiErr.http 404) := by
  have h : get_product "nope" [pA] = Except.error ApiErr.invalidId := rfl
  refine ⟨h, ?_⟩
  rw [h]
  intro hco
  exact absurd (Except.error.inj hco) (by decide)

theorem resolveCart_ok (products : List ProductRec) :
    ∀ items : List CartItemRec,
      (∀ it ∈ items, it.product_id = "" ∨ (parseOid it.product_id).isSome = true) →
      resolveCart products items = Except.ok (items.map (fun it =>
        (it, match parseOid it.product_id with
             | none => none
             | some oid => products.find? (fun p => p.id == oid)))) := by
  intro items
  induction items with
  | nil => intro _; rfl
  | cons it rest ih =>
    intro h
    have hit := h it (List.mem_cons_self it rest)
    have hrest := ih (fun x hx => h x (List.mem_cons_of_mem it hx))
    rw [resolveCart, hrest, List.map_cons]
    by_cases he : it.product_id = ""
    · have hpe : parseOid it.product_id = none := by rw [he]; rfl
      rw [if_pos he, hpe]
    · rw [if_neg he]
      rcases hit with h1 | h2
      · exact absurd h1 he
      · rcases hps : parseOid it.product_id with _ | oid
        · rw [hps] at h2
          exact absurd h2 (by simp)
        · rfl

/-- C1 (amended): `get_cart` returns one row per stored cart item whose
`client_id` matches, in store order, each annotated with its resolved
product; a row's product is `null` when its `product_id` is empty or parses
but resolves to no product record.  (When some matching item has a
non-empty `product_id` that does not parse, the request as a whole fails
with the driver's invalid-id error instead — see the counterexample.) -/
theorem get_cart_rows (client_id : String) (items : List CartItemRec)
    (products : List ProductRec)
    (h : ∀ it ∈ items, it.client_id = client_id →
        it.product_id = "" ∨ (parseOid it.product_id).isSome = true) :
    get_cart client_id items products = Except.ok
      ((items.filter (fun it => it.client_id == client_id)).map (fun it =>
        (it, match parseOid it.product_id with
             | none => none
             | some oid => products.find? (fun p => p.id == oid)))) := by
  unfold get_cart
  refine resolveCart_ok products _ ?_
  intro it hit
  rw [List.mem_filter] at hit
  exact h it hit.1 (by simpa using hit.2)

/-- Witness for C1 (amended) at a concrete input: one matching item whose
`product_id` parses but matches no stored product — the row carries a
`null` product and the request succeeds. -/
theorem get_cart_rows_wit :
    get_cart "c1" [ciA] [pB] = Except.ok
      (([ciA].filter (fun it => it.client_id == "c1")).map (fun it =>
        (it, match parseOid it.product_id with
             | none => none
             | some oid => [pB].find? (fun p => p.id == oid)))) :=
  get_cart_rows "c1" [ciA] [pB] (by decide)

/-- Counterexample to C1 as stated: a cart item whose `product_id` is a
non-empty string that does not parse makes the whole request raise the
invalid-id error; it is not returned as a row with a `null` product. -/
theorem get_cart_unparsable_cex :
    get_cart "c1" [ciB] [] = Except.error ApiErr.invalidId
    ∧ get_cart "c1" [ciB] [] ≠ Except.ok [(ciB, none)] := by
  have h : get_cart "c1" [ciB] [] = Except.error ApiErr.invalidId := rfl
  refine ⟨h, ?_⟩
  rw [h]
  intro hco
  exact Except.noConfusion hco

/-- C6: for an email the `EmailStr` validator accepts (the validator is
the external email-validator library behind schemas.py line 20, modelled
as the abstract verdict `emailOk`, over which the theorem quantifies),
with no stored user carrying the email, the first `register` call
succeeds — creating a `User` with role `user` and the supplied password
stored verbatim in the hash field, and returning the created identifier,
name, email and role — and a second call with the same email fails with
Conflict (400) and creates no user. -/
theorem register_conflict (emailOk : String → Bool) (users : List UserRec)
    (name email password name2 password2 : String) (id1 id2 : Nat)
    (hok : emailOk email = true)
    (h : ∀ u ∈ users, u.email ≠ email) :
    (register emailOk id1 name email password users).2
        = Except.ok { id := id1, name := name, email := email, role := Role.user }
    ∧ (register emailOk id1 name email password users).1
        = users ++ [{ id := id1, name := name, email := email, password_hash := password, address := none, is_active := true, role := Role.user }]
    ∧ (register emailOk id2 name2 email password2
          (register emailOk id1 name email password users).1).2
        = Except.error (ApiErr.http 400)
    ∧ (register emailOk id2 name2 email password2
          (register emailOk id1 name email password users).1).1
        = (register emailOk id1 name email password users).1 := by
  have hfind : users.find? (fun u => u.email == email) = none :=
    List.find?_eq_none.2 (fun u hu => by simpa using h u hu)
  have h1 : register emailOk id1 name email password users
      = (users ++ [{ id := id1, name := name, email := email, password_hash := password, address := none, is_active := true, role := Role.user }],
         Except.ok { id := id1, name := name, email := email, role := Role.user }) := by
    unfold register
    rw [hfind]
    show (if emailOk email = true
        then (users ++ [{ id := id1, name := name, email := email, password_hash := password, address := none, is_active := true, role := Role.user }],
          Except.ok ({ id := id1, name := name, email := email, role := Role.user } : RegisterOut))
        else (users, Except.error ApiErr.validation))
      = (users ++ [{ id := id1, name := name, email := email, password_hash := password, address := none, is_active := true, role := Role.user }],
         Except.ok ({ id := id1, name := name, email := email, role := Role.user } : RegisterOut))
    rw [if_pos hok]
  have hfind2 : List.find? (fun u => u.email == email) (users ++ [({ id := id1, name := name, email := email, password_hash := password, address := none, is_active := true, role := Role.user } : UserRec)])
      = some { id := id1, name := name, email := email, password_hash := password, address := none, is_active := true, role := Role.user } := by
    rw [List.find?_append, hfind]
    simp
  have h2 : ∀ L : List UserRec, L.find? (fun u => u.email == email)
        = some { id := id1, name := name, email := email, password_hash := password, address := none, is_active := true, role := Role.user } →
      register emailOk id2 name2 email password2 L = (L, Except.error (ApiErr.http 400)) := by
    intro L hL
    unfold register
    rw [hL]
  refine ⟨?_, ?_, ?_, ?_⟩
  · rw [h1]
  · rw [h1]
  · rw [h1, h2 _ hfind2]
  · rw [h1, h2 _ hfind2]

/-- Witness for C6 at a concrete input: registering the same email twice on
an initially empty user collection. -/
theorem register_conflict_wit :
    (register (fun _ => true) 1 "Ann" "a@x.io" "pw" []).2
        = Except.ok { id := 1, name := "Ann", email := "a@x.io", role := Role.user }
    ∧ (register (fun _ => true) 1 "Ann" "a@x.io" "pw" []).1
        = [] ++ [{ id := 1, name := "Ann", email := "a@x.io", password_hash := "pw", address := none, is_active := true, role := Role.user }]
    ∧ (register (fun _ => true) 2 "Bob" "a@x.io" "pw2" (register (fun _ => true) 1 "Ann" "a@x.io" "pw" []).1).2
        = Except.error (ApiErr.http 400)
    ∧ (register (fun _ => true) 2 "Bob" "a@x.io" "pw2" (register (fun _ => true) 1 "Ann" "a@x.io" "pw" []).1).1
        = (register (fun _ => true) 1 "Ann" "a@x.io" "pw" []).1 :=
  register_conflict (fun _ => true) [] "Ann" "a@x.io" "pw" "Bob" "pw2" 1 2 rfl
    (by simp)

theorem updateFirst_cases (oid : Nat) (f : CartItemRec → CartItemRec) :
    ∀ items : List CartItemRec,
      (updateFirst oid f items = (items, false) ∧ ∀ it ∈ items, it.id ≠ oid)
      ∨ (∃ i, ∃ hi : i < items.length,
          (items.get ⟨i, hi⟩).id = oid
          ∧ updateFirst oid f items
              = (items.set i (f (items.get ⟨i, hi⟩)), true)) := by
  intro items
  induction items with
  | nil => exact Or.inl ⟨rfl, by simp⟩
  | cons it rest ih =>
    by_cases hid : it.id = oid
    · refine Or.inr ⟨0, by simp, hid, ?_⟩
      rw [updateFirst, if_pos hid]
      rfl
    · rcases ih with ⟨heq, hall⟩ | ⟨i, hi, hoid, heq⟩
      · refine Or.inl ⟨?_, ?_⟩
        · rw [updateFirst, if_neg hid, heq]
        · intro x hx
          rcases List.mem_cons.1 hx with rfl | hx
          · exact hid
          · exact hall x hx
      · refine Or.inr ⟨i + 1, Nat.succ_lt_succ hi, hoid, ?_⟩
        rw [updateFirst, if_neg hid, heq]
        rfl

/-- C7: for every well-formed item identifier and quantity, `update_cart`
fails with NotFound (404) when no cart item carries that identifier, and
otherwise sets the (first) matched item's quantity to `qty` and its
`updated_at` to the current server time and reports success,
leaving the collection otherwise as produced by that single `$set`. -/
theorem update_cart_spec (item_id : String) (oid : Nat) (qty : Int)
    (now : Nat) (items : List CartItemRec)
    (hp : parseOid item_id = some oid) :
    ((∀ it ∈ items, it.id ≠ oid) →
        update_cart item_id qty now items
          = (items, Except.error (ApiErr.http 404)))
    ∧ ((∃ it ∈ items, it.id = oid) →
        ∃ i, ∃ hi : i < items.length, (items.get ⟨i, hi⟩).id = oid
          ∧ update_cart item_id qty now items
              = (items.set i { items.get ⟨i, hi⟩ with
                    qty := qty, updated_at := some now },
                 Except.ok ())) := by
  have hu : update_cart item_id qty now items
      = (if (updateFirst oid
            (fun it => { it with qty := qty, updated_at := some now }) items).2
         then ((updateFirst oid
            (fun it => { it with qty := qty, updated_at := some now }) items).1,
            Except.ok ())
         else ((updateFirst oid
            (fun it => { it with qty := qty, updated_at := some now }) items).1,
            Except.error (ApiErr.http 404))) := by
    unfold update_cart
    rw [hp]
  rcases updateFirst_cases oid
      (fun it => { it with qty := qty, updated_at := some now }) items with
    ⟨heq, hall⟩ | ⟨i, hi, hoid, heq⟩
  · refine ⟨fun _ => ?_, fun hex => ?_⟩
    · rw [hu, heq]
      rfl
    · rcases hex with ⟨x, hx, hxid⟩
      exact absurd hxid (hall x hx)
  · refine ⟨fun hnone => absurd hoid (hnone _ (items.get_mem i hi)),
      fun _ => ⟨i, hi, hoid, ?_⟩⟩
    rw [hu, heq]
    rfl

/-- Witness for C7 at a concrete input: a well-formed identifier matching
no stored cart item yields the 404. -/
theorem update_cart_spec_wit :
    update_cart "00000000000000000000000b" 5 99 [ciA]
      = ([ciA], Except.error (ApiErr.http 404)) :=
  (update_cart_spec "00000000000000000000000b" 11 5 99 [ciA] (by decide)).1
    (by decide)

/-- C10: a successful `update_cart` preserves the collection's length, and
every position either holds its old record unchanged or — when it is the
matched item — holds the old record with only `qty` and `updated_at`
replaced (so its `id`, `client_id` and `product_id` are unchanged). -/
theorem update_cart_frame (item_id : String) (oid : Nat) (qty : Int)
    (now : Nat) (items : List CartItemRec)
    (hp : parseOid item_id = some oid)
    (hok : (update_cart item_id qty now items).2 = Except.ok ()) :
    (update_cart item_id qty now items).1.length = items.length
    ∧ ∀ (dflt : CartItemRec) (j : Nat), j < items.length →
        ((update_cart item_id qty now items).1.getD j dflt = items.getD j dflt)
        ∨ ((items.getD j dflt).id = oid
            ∧ (update_cart item_id qty now items).1.getD j dflt
                = { items.getD j dflt with qty := qty, updated_at := some now }) := by
  have hu : update_cart item_id qty now items
      = (if (updateFirst oid
            (fun it => { it with qty := qty, updated_at := some now }) items).2
         then ((updateFirst oid
            (fun it => { it with qty := qty, updated_at := some now }) items).1,
            Except.ok ())
         else ((updateFirst oid
            (fun it => { it with qty := qty, updated_at := some now }) items).1,
            Except.error (ApiErr.http 404))) := by
    unfold update_cart
    rw [hp]
  rcases updateFirst_cases oid
      (fun it => { it with qty := qty, updated_at := some now }) items with
    ⟨heq, _⟩ | ⟨i, hi, hoid, heq⟩
  · rw [hu, heq] at hok
    simp at hok
  · have h1 : (update_cart item_id qty now items).1
        = items.set i { items.get ⟨i, hi⟩ with
            qty := qty, updated_at := some now } := by
      rw [hu, heq]
      rfl
    refine ⟨by rw [h1, List.length_set], ?_⟩
    intro dflt j hj
    have hjs : j < (items.set i { items.get ⟨i, hi⟩ with
        qty := qty, updated_at := some now }).length := by
      rw [List.length_set]
      exact hj
    by_cases hji : j = i
    · subst hji
      right
      refine ⟨?_, ?_⟩
      · rw [List.getD_eq_getElem items dflt hj]
        exact hoid
      · rw [h1, List.getD_eq_getElem _ dflt hjs, List.getD_eq_getElem items dflt hj,
          List.getElem_set_self]
        rfl
    · left
      rw [h1, List.getD_eq_getElem _ dflt hjs, List.getD_eq_getElem items dflt hj,
        List.getElem_set_ne (fun hco => hji hco.symm)]

/-- Witness for C10 at a concrete input: updating the first of two cart
items keeps the collection's length. -/
theorem update_cart_frame_wit :
    (update_cart "00000000000000000000000a" 5 99 [ciA, ciB]).1.length
      = ([ciA, ciB] : List CartItemRec).length :=
  (update_cart_frame "00000000000000000000000a" 10 5 99 [ciA, ciB]
    (by decide) (by rfl)).1

/-- C8: `seed_data` is idempotent: whenever at least one product record
already exists it inserts nothing and reports already seeded, and running
it twice in sequence leaves the product collection identical to running it
once. -/
theorem seed_idempotent (st : Store) :
    (st.products ≠ [] → seed_data st = (st, SeedOut.already))
    ∧ (seed_data (seed_data st).1).1.products = (seed_data st).1.products := by
  have hpos : ∀ s : Store, s.products ≠ [] → seed_data s = (s, SeedOut.already) := by
    intro s hs
    unfold seed_data
    rw [if_pos (List.length_pos.2 hs)]
  refine ⟨hpos st, ?_⟩
  by_cases h : st.products = []
  · have hn : ¬ st.products.length > 0 := by
      rw [h]
      simp
    have h1 : (seed_data st).1.products
        = st.products ++ seedProducts (st.nextId + 3) := by
      unfold seed_data
      rw [if_neg hn]
    have hne : (seed_data st).1.products ≠ [] := by
      rw [h1, h, List.nil_append]
      intro hco
      have := congrArg List.length hco
      simp [seedProducts] at this
    rw [hpos _ hne]
  · rw [hpos st h]
    have : (st, SeedOut.already).1 = st := rfl
    rw [this, hpos st h]

/-- Witness for C8 at a concrete input: a store that already holds a
product. -/
theorem seed_idempotent_wit :
    seed_data { products := [pA], categories := [], nextId := 7 }
      = ({ products := [pA], categories := [], nextId := 7 }, SeedOut.already)
    ∧ (seed_data (seed_data { products := [pA], categories := [], nextId := 7 }).1).1.products
      = (seed_data { products := [pA], categories := [], nextId := 7 }).1.products :=
  ⟨(seed_idempotent { products := [pA], categories := [], nextId := 7 }).1
      (by simp),
   (seed_idempotent { products := [pA], categories := [], nextId := 7 }).2⟩
